import Mathlib

/-!
Verification of the recipe-chatbot demo scripts
(`scripts/create_dataset.py` and `scripts/generate_traces.py`).

Python values flowing through the scripts are dynamically typed, so we embed
them with a small `PyVal` type (None, str, int, list, dict with string keys).
Python truthiness, dict `get`, indexing, iteration and string operations are
embedded structurally so that all definitions evaluate by kernel reduction.
Operations that would raise a Python exception return `Except`, and the
the `try`/`except` blocks of the scripts become matches on those results.
-/

/-- A dynamically typed Python value as used by the scripts: `None`, a string,
an integer, a list, or a dict with string keys. -/
inductive PyVal where
  | vNone : PyVal
  | vStr : String → PyVal
  | vInt : Int → PyVal
  | vList : List PyVal → PyVal
  | vDict : List (String × PyVal) → PyVal

open PyVal

/-- Python truthiness: `None`, `""`, `0`, `[]`, `{}` are falsy. -/
def pyTruthy : PyVal → Bool
  | vNone => false
  | vStr s => s != ""
  | vInt n => n != 0
  | vList xs => !xs.isEmpty
  | vDict es => !es.isEmpty

/-- Python `d.get(k)`: the value of the first entry with key `k`, if any. -/
def dictGet (es : List (String × PyVal)) (k : String) : Option PyVal :=
  (es.find? (fun kv => kv.1 == k)).map (fun kv => kv.2)

/-- Python `v == "lit"` for a string literal: true exactly when `v` is the
string `s` (comparison with a non-string is `False`, not an error). -/
def pyEqStr (v : PyVal) (s : String) : Bool :=
  match v with
  | vStr t => t == s
  | _ => false

/-- Python `opt == "lit"` where `opt` is the result of a `dict.get`:
`None == "lit"` is `False`. -/
def optEqStr (o : Option PyVal) (s : String) : Bool :=
  match o with
  | some v => pyEqStr v s
  | none => false

/-- Python iteration `for x in v`: lists yield their elements, strings their
characters (as 1-character strings), dicts their keys; `None`/ints raise
`TypeError` (modelled by `Except.error`). -/
def pyIter : PyVal → Except Unit (List PyVal)
  | vList xs => .ok xs
  | vStr s => .ok (s.toList.map (fun c => vStr (String.mk [c])))
  | vDict es => .ok (es.map (fun kv => vStr kv.1))
  | vNone => .error ()
  | vInt _ => .error ()

/-- Python `v[0]`: first element of a list, first character of a string;
an empty list/string raises `IndexError`, a dict raises `KeyError` (its keys
are strings here, never `0`), `None`/ints raise `TypeError`. -/
def pyIndex0 : PyVal → Except Unit PyVal
  | vList (x :: _) => .ok x
  | vList [] => .error ()
  | vStr s =>
      match s.toList with
      | c :: _ => .ok (vStr (String.mk [c]))
      | [] => .error ()
  | vDict _ => .error ()
  | vNone => .error ()
  | vInt _ => .error ()

/-- Python `str.lower()` (embedded character-wise so it evaluates). -/
def pyLower (s : String) : String :=
  String.mk (s.toList.map Char.toLower)

/-- Python `pre in s` fails or `s.startswith(pre)`: prefix test on characters. -/
def pyStartsWith (s pre : String) : Bool :=
  pre.toList.isPrefixOf s.toList

/-- Character-list substring occurrence, structural in the searched list. -/
def listContainsSub (pat : List Char) : List Char → Bool
  | [] => pat.isEmpty
  | c :: rest => pat.isPrefixOf (c :: rest) || listContainsSub pat rest

/-- Python `pat in s` for strings: substring occurrence. -/
def strContains (s pat : String) : Bool :=
  listContainsSub pat.toList s.toList

/-! ## `scripts/create_dataset.py` -/

/-- A trace as fetched from the observability platform, as the script reads
it: each of `input`, `output`, `observations` is an attribute that may be
absent (`none`) or hold any Python value; `name` is a string or `None`;
`id` is the trace identifier. -/
structure Trace where
  name : Option String
  input : Option PyVal
  output : Option PyVal
  observations : Option PyVal
  id : String

/-- The record built by `extract_trace_data` (the Python dict with keys
`query`, `dietary_restriction`, `response`, `trace_id`). -/
structure ExtractedItem where
  query : PyVal
  dietary_restriction : PyVal
  response : PyVal
  trace_id : String

/-- The filter in `get_demo_traces`:
`trace.name and trace.name.startswith("Query:")`. -/
def isDemoTrace (t : Trace) : Bool :=
  match t.name with
  | none => false
  | some s => (s != "") && pyStartsWith s "Query:"

/-- The accumulation loop of `get_demo_traces`: append each matching trace,
breaking as soon as 12 have been collected. -/
def collectDemo : List Trace → List Trace → List Trace
  | [], acc => acc
  | t :: rest, acc =>
      if isDemoTrace t then
        let acc' := acc ++ [t]
        if 12 ≤ acc'.length then acc' else collectDemo rest acc'
      else collectDemo rest acc

/-- `get_demo_traces()`: `fetched` is the outcome of the platform call
(`.error` = the call raised, with the exception text); on success the traces
are filtered by name prefix with the 12-item break, on failure the
`except` branch returns `[]`. -/
def get_demo_traces (fetched : Except String (List Trace)) : List Trace :=
  match fetched with
  | .ok traces => collectDemo traces []
  | .error _ => []

/-- The query-extraction stage of `extract_trace_data` (lines 48–56):
`query = ""`; if the trace has a truthy `input` that is a dict containing
`"messages"`, scan the messages for the first one whose `role` equals
`"user"` and take its `content` (default `""`). Iterating a non-iterable or
calling `.get` on a non-dict raises, which the outer `except` turns into
`None` (modelled as `Except.error`). -/
def findUserContent : List PyVal → Except Unit PyVal
  | [] => .ok (vStr "")
  | m :: rest =>
      match m with
      | vDict es =>
          if optEqStr (dictGet es "role") "user" then
            .ok ((dictGet es "content").getD (vStr ""))
          else findUserContent rest
      | _ => .error ()

/-- Query extraction from `trace.input` (see `findUserContent`). -/
def extractQuery (input : Option PyVal) : Except Unit PyVal :=
  match input with
  | none => .ok (vStr "")
  | some inp =>
      if pyTruthy inp then
        match inp with
        | vDict es =>
            match dictGet es "messages" with
            | some msgs =>
                match pyIter msgs with
                | .ok items => findUserContent items
                | .error e => .error e
            | none => .ok (vStr "")
        | _ => .ok (vStr "")
      else .ok (vStr "")

/-- The response stage of `extract_trace_data` (lines 59–61): the `content`
field of `trace.output` when that attribute exists, is truthy and is a dict;
otherwise `""`. Never raises. -/
def extractResponse (output : Option PyVal) : PyVal :=
  match output with
  | none => vStr ""
  | some o =>
      if pyTruthy o then
        match o with
        | vDict es => (dictGet es "content").getD (vStr "")
        | _ => vStr ""
      else vStr ""

/-- The observation-metadata stage of `extract_trace_data` (lines 64–76).
`fetch` models `Langfuse().get_observation`: for an observation id it either
raises (`.error`) or returns the `metadata` attribute of the observation
(`none` = attribute absent). Everything inside the inner `try` — the fetch
and the metadata read — is swallowed by `except: pass`; only the indexing
`trace.observations[0]` can escape to the outer handler. -/
def obsRestriction (observations : Option PyVal)
    (fetch : PyVal → Except String (Option PyVal)) : Except Unit PyVal :=
  match observations with
  | none => .ok (vStr "")
  | some obs =>
      if pyTruthy obs then
        match pyIndex0 obs with
        | .error e => .error e
        | .ok obsId =>
            if pyTruthy obsId then
              match fetch obsId with
              | .error _ => .ok (vStr "")
              | .ok metaAttr =>
                  match metaAttr with
                  | none => .ok (vStr "")
                  | some m =>
                      if pyTruthy m then
                        match m with
                        | vDict es => .ok ((dictGet es "dietary_restriction").getD (vStr ""))
                        | _ => .ok (vStr "")
                      else .ok (vStr "")
            else .ok (vStr "")
      else .ok (vStr "")

/-- The fallback heuristic of `extract_trace_data` (lines 79–88): when the
restriction so far is falsy and the query is truthy, lower-case the query
(`AttributeError` if it is not a string) and test the keyword chain. -/
def restrictionHeuristic (dr q : PyVal) : Except Unit PyVal :=
  if !pyTruthy dr && pyTruthy q then
    match q with
    | vStr s =>
        let ql := pyLower s
        if strContains ql "gluten" then .ok (vStr "gluten-free")
        else if strContains ql "sugar-free" then .ok (vStr "sugar-free")
        else if strContains ql "vegetarian" then .ok (vStr "vegetarian")
        else if strContains ql "paleo" then .ok (vStr "paleo")
        else .ok dr
    | _ => .error ()
  else .ok dr

/-- `extract_trace_data(trace)`: runs the four stages in source order inside
one `try`; any escaping exception yields `None`. -/
def extract_trace_data (fetch : PyVal → Except String (Option PyVal))
    (trace : Trace) : Option ExtractedItem :=
  match (do
      let q ← extractQuery trace.input
      let resp := extractResponse trace.output
      let dr0 ← obsRestriction trace.observations fetch
      let dr ← restrictionHeuristic dr0 q
      pure { query := q, dietary_restriction := dr, response := resp,
             trace_id := trace.id } : Except Unit ExtractedItem) with
  | .ok item => some item
  | .error _ => none

/-- The upload loop of `create_langfuse_dataset` (lines 117–131): an item is
uploaded exactly when `item and item["response"]` is truthy. The platform
calls are modelled as succeeding; the list returned is the sequence of
uploaded items in order. -/
def uploadLoop : List (Option ExtractedItem) → List ExtractedItem
  | [] => []
  | none :: rest => uploadLoop rest
  | some it :: rest =>
      if pyTruthy it.response then it :: uploadLoop rest else uploadLoop rest

/-- The count printed at line 133:
`len([i for i in dataset_items if i and i["response"]])`. -/
def reportedCount (items : List (Option ExtractedItem)) : Nat :=
  (items.filter (fun o =>
    match o with
    | some it => pyTruthy it.response
    | none => false)).length

/-- Result of `create_langfuse_dataset` on its successful path: the uploaded
items and the reported count. -/
structure DatasetResult where
  uploaded : List ExtractedItem
  reported : Nat

/-- `create_langfuse_dataset(dataset_items)` on the path where the platform
calls succeed. -/
def create_langfuse_dataset (items : List (Option ExtractedItem)) : DatasetResult :=
  { uploaded := uploadLoop items, reported := reportedCount items }

/-! ## `scripts/generate_traces.py` -/

/-- A query record as handled by `generate_traces.py`: the dict built by
`select_demo_queries` has keys `id`, `query`, `dietary_restriction`;
`response_number` is `none` until the orchestration `copy()` sets it
(`query_data.get("response_number", 1)` defaults to `1`). -/
structure QueryData where
  id : Int
  query : String
  dietary_restriction : String
  response_number : Option Int

/-- A message dict exchanged with the agent (string keys, Python values). -/
def PyMsg := List (String × PyVal)

/-- The behaviour of the external collaborator `get_agent_response`:
given the message list and the metadata dict, it either raises
(`.error` with the exception text, possibly empty) or returns a list of
message dicts. -/
def Agent := List PyMsg → PyMsg → Except String (List PyMsg)

/-- The message list constructed by `generate_trace` (line 63). -/
def mkMessages (query : String) : List PyMsg :=
  [[("role", vStr "user"), ("content", vStr query)]]

/-- The metadata payload constructed by `generate_trace` (lines 64–67). -/
def mkMetadata (qd : QueryData) : PyMsg :=
  [("dietary_restriction", vStr qd.dietary_restriction),
   ("response_number", vInt (qd.response_number.getD 1))]

/-- `str(KeyError(k))` as recorded by the catch-all handler. -/
def keyErrorText (k : String) : String := "KeyError: " ++ k

/-- The scan of `generate_trace` (lines 71–75): `assistant_response = ""`;
for each message, `msg["role"]` (a `KeyError` if absent) is compared with
`"assistant"`; on the first match, `msg["content"]` (a `KeyError` if absent)
becomes the response and the loop breaks. -/
def findAssistant : List PyMsg → Except String PyVal
  | [] => .ok (vStr "")
  | m :: rest =>
      match dictGet m "role" with
      | none => .error (keyErrorText "role")
      | some r =>
          if pyEqStr r "assistant" then
            match dictGet m "content" with
            | none => .error (keyErrorText "content")
            | some c => .ok c
          else findAssistant rest

/-- The per-attempt result dict of `generate_trace`. -/
structure TraceResult where
  query_id : Int
  query : String
  dietary_restriction : String
  response : PyVal
  success : Bool
  error : Option String

/-- `generate_trace(query_data)`: calls the agent with the constructed
messages and metadata, scans for the first assistant message, and returns a
success record; any exception raised inside the `try` — from the agent call
or from the key lookups of the scan — is caught and turned into a failure record
with `response=""` and the exception text as `error`. Total: it never
propagates an exception. -/
def generate_trace (agent : Agent) (qd : QueryData) : TraceResult :=
  let query := qd.query
  let dietary_restriction := qd.dietary_restriction
  match (do
      let response_messages ← agent (mkMessages query) (mkMetadata qd)
      findAssistant response_messages : Except String PyVal) with
  | .ok resp =>
      { query_id := qd.id, query := query,
        dietary_restriction := dietary_restriction,
        response := resp, success := true, error := none }
  | .error e =>
      { query_id := qd.id, query := query,
        dietary_restriction := dietary_restriction,
        response := vStr "", success := false, error := some e }

/-- The hardcoded identifiers of `select_demo_queries` (line 41). -/
def selected_ids : List Int := [26, 43, 46, 48]

/-- `select_demo_queries(df)`: for each hardcoded id, take the first catalog
row with that id, if any (`df[df["id"] == query_id]` nonempty, `iloc[0]`),
and build a record with its `id`, `query` and `dietary_restriction`
(no `response_number` key). Absent ids are skipped silently. -/
def select_demo_queries (df : List QueryData) : List QueryData :=
  selected_ids.filterMap (fun qid =>
    (df.find? (fun r => r.id == qid)).map (fun r =>
      { id := r.id, query := r.query,
        dietary_restriction := r.dietary_restriction,
        response_number := none }))

/-- The request-building loop of `main` (lines 125–129): for each demo query,
three copies with `response_number` 1, 2, 3, in that order. -/
def buildGenerations (qs : List QueryData) : List QueryData :=
  qs.flatMap (fun q =>
    (List.range 3).map (fun i => { q with response_number := some (Int.ofNat i + 1) }))

/-- The sequential generation loop of `main` (lines 131–133). -/
def runGenerations (agent : Agent) (qs : List QueryData) : List TraceResult :=
  (buildGenerations qs).map (generate_trace agent)

/-- `main()` of `generate_traces.py`: `df` is the outcome of
`load_dietary_queries` (`none` = missing CSV, reported as failure); otherwise
select the demo queries, run the 3-per-query generations sequentially, and
return `len(successful_traces) > 0` together with the accumulated results. -/
def generate_traces_main (agent : Agent) (df : Option (List QueryData)) :
    Bool × List TraceResult :=
  match df with
  | none => (false, [])
  | some records =>
      let traces := runGenerations agent (select_demo_queries records)
      (0 < (traces.filter (fun t => t.success)).length, traces)

/-- The `__main__` block: exit code 0 when `main()` returned `True`, else 1. -/
def scriptExitCode (agent : Agent) (df : Option (List QueryData)) : Nat :=
  if (generate_traces_main agent df).1 then 0 else 1

/-! ## Concrete inputs used by witnesses and counterexamples -/

/-- Is the value a Python `str`? -/
def isStr : PyVal → Bool
  | vStr _ => true
  | _ => false

/-- A demo query record (id 26 is one of the hardcoded identifiers). -/
def qd0 : QueryData :=
  { id := 26, query := "Low sugar dessert ideas",
    dietary_restriction := "sugar-free", response_number := none }

/-- An agent whose call raises an exception whose text is empty
(Python `raise Exception()` gives `str(e) == ""`). -/
def agentEmptyError : Agent := fun _ _ => .error ""

/-- An agent returning one non-assistant message followed by a message dict
with no `"role"` key. -/
def agentNoRoleKey : Agent := fun _ _ =>
  .ok [[("role", vStr "user")], []]

/-- An agent returning one message dict that has no `"role"` key (and hence
no assistant-role message at all). -/
def agentEmptyMsg : Agent := fun _ _ => .ok [[]]

/-- The stub agent of the end-to-end scenario: always returns exactly one
assistant message. -/
def stubAgent : Agent := fun _ _ =>
  .ok [[("role", vStr "assistant"), ("content", vStr "Heres a recipe")]]

/-- A catalog containing rows for all four hardcoded identifiers. -/
def dfFull : List QueryData :=
  [ { id := 26, query := "Low sugar dessert ideas",
      dietary_restriction := "sugar-free", response_number := none },
    { id := 43, query := "Meatless dinner for four",
      dietary_restriction := "vegetarian", response_number := none },
    { id := 46, query := "Paleo lunch prep",
      dietary_restriction := "paleo", response_number := none },
    { id := 48, query := "I need a gluten-free dinner",
      dietary_restriction := "gluten-free", response_number := none } ]

/-- A catalog missing identifier 48 (only three of the four ids present). -/
def dfMissing : List QueryData := dfFull.take 3

/-- An observation fetch that always raises. -/
def fetchE : PyVal → Except String (Option PyVal) := fun _ => .error "unavailable"

/-- A well-formed trace: user message "I need a gluten-free dinner", no
output attribute, no observations. -/
def trace4 : Trace :=
  { name := some "Query: I need a gluten-free dinner",
    input := some (vDict [("messages",
      vList [vDict [("role", vStr "user"),
                    ("content", vStr "I need a gluten-free dinner")]])]),
    output := none,
    observations := none,
    id := "t4" }

/-- What `extract_trace_data` produces from `trace4`. -/
def item4 : ExtractedItem :=
  { query := vStr "I need a gluten-free dinner",
    dietary_restriction := vStr "gluten-free",
    response := vStr "",
    trace_id := "t4" }

/-- A trace whose `output` attribute is absent and whose `input` holds a
dict whose `"messages"` value is the integer `1` (iterating it raises
`TypeError`). -/
def trace8 : Trace :=
  { name := none,
    input := some (vDict [("messages", vInt 1)]),
    output := none,
    observations := none,
    id := "t8" }

/-- A trace whose output dict carries a non-string `content` (the platform
stores arbitrary JSON there). -/
def traceI : Trace :=
  { name := none,
    input := none,
    output := some (vDict [("content", vInt 1)]),
    observations := none,
    id := "tI" }

/-- What `extract_trace_data` produces from `traceI`: a non-`None` item
whose `response` is the integer `1`, not a string. -/
def itemI : ExtractedItem :=
  { query := vStr "",
    dietary_restriction := vStr "",
    response := vInt 1,
    trace_id := "tI" }

/-- An extracted item with the given response text. -/
def mkIt (resp : String) : ExtractedItem :=
  { query := vStr "q", dietary_restriction := vStr "vegan",
    response := vStr resp, trace_id := "t" }

/-- Twelve extracted items of which two have an empty response. -/
def items12 : List (Option ExtractedItem) :=
  [some (mkIt "r1"), some (mkIt "r2"), some (mkIt "r3"), some (mkIt "r4"),
   some (mkIt ""), some (mkIt "r5"), some (mkIt "r6"), some (mkIt "r7"),
   some (mkIt ""), some (mkIt "r8"), some (mkIt "r9"), some (mkIt "r10")]

/-- An agent returning a single well-formed user message and no assistant
message. -/
def agentUserOnly : Agent := fun _ _ =>
  .ok [[("role", vStr "user"), ("content", vStr "hi")]]

/-! ## Theorems -/

theorem isDemoTrace_eq (t : Trace) :
    isDemoTrace t = pyStartsWith (t.name.getD "") "Query:" := by
  cases hn : t.name with
  | none => simp [isDemoTrace, hn]; decide
  | some s =>
      simp only [isDemoTrace, hn, Option.getD_some]
      cases hb : (s != "") with
      | true => simp
      | false =>
          have hs : s = "" := by simpa using hb
          subst hs; decide

theorem collectDemo_eq (ts : List Trace) :
    ∀ acc : List Trace, acc.length < 12 →
      collectDemo ts acc = (acc ++ ts.filter isDemoTrace).take 12 := by
  induction ts with
  | nil =>
      intro acc h
      simp [collectDemo, List.take_of_length_le (Nat.le_of_lt h)]
  | cons t rest ih =>
      intro acc h
      cases hd : isDemoTrace t with
      | false =>
          simp only [collectDemo, hd, Bool.false_eq_true, if_false,
            List.filter_cons, ih acc h]
      | true =>
          simp only [collectDemo, hd, if_true, List.filter_cons]
          by_cases h12 : 12 ≤ (acc ++ [t]).length
          · have hlen : (acc ++ [t]).length = 12 := by
              simp only [List.length_append, List.length_cons, List.length_nil] at h12 ⊢
              omega
            rw [if_pos h12]
            have hassoc : acc ++ t :: rest.filter isDemoTrace =
                (acc ++ [t]) ++ rest.filter isDemoTrace := by
              simp
            rw [hassoc, List.take_append_eq_append_take, hlen]
            simp only [Nat.sub_self, List.take_zero, List.append_nil]
            rw [List.take_of_length_le (by omega)]
          · rw [if_neg h12]
            have hlt : (acc ++ [t]).length < 12 := by omega
            rw [ih (acc ++ [t]) hlt]
            simp

/-- Claim C3: for every fetched trace list, `get_demo_traces` returns exactly
the traces whose name starts with the literal prefix `"Query:"`, in the
original fetch order, truncated to at most the first 12 matches; on any
platform-call exception it returns an empty list instead of propagating. -/
theorem get_demo_traces_spec (fetched : Except String (List Trace)) :
    get_demo_traces fetched =
      match fetched with
      | .ok ts => (ts.filter (fun t => pyStartsWith (t.name.getD "") "Query:")).take 12
      | .error _ => [] := by
  cases fetched with
  | error e => rfl
  | ok ts =>
      show collectDemo ts [] = _
      rw [collectDemo_eq ts [] (by decide)]
      simp only [List.nil_append]
      congr 1
      exact List.filter_congr (fun t _ => isDemoTrace_eq t)

theorem success_filter_pos (l : List TraceResult) :
    0 < (l.filter (fun t => t.success)).length ↔ ∃ t ∈ l, t.success = true := by
  induction l with
  | nil => simp
  | cons x xs ihx =>
      cases hx : x.success <;> simp [List.filter_cons, hx, ihx]

/-- Claim C9: `main` of the Trace Generator reports success (and the process
exits 0, i.e. not 1) if and only if at least one generation attempt
succeeded; only a run with zero successful traces exits with code 1. -/
theorem generate_traces_main_spec (agent : Agent) (df : Option (List QueryData)) :
    ((generate_traces_main agent df).1 = true ↔
      ∃ t ∈ (generate_traces_main agent df).2, t.success = true) ∧
    (scriptExitCode agent df = 1 ↔
      ∀ t ∈ (generate_traces_main agent df).2, t.success = false) := by
  have hexit : scriptExitCode agent df = 1 ↔ (generate_traces_main agent df).1 = false := by
    unfold scriptExitCode
    cases h : (generate_traces_main agent df).1 <;> simp [h]
  have hfst : (generate_traces_main agent df).1 = true ↔
      ∃ t ∈ (generate_traces_main agent df).2, t.success = true := by
    cases df with
    | none => simp [generate_traces_main]
    | some records =>
        simpa [generate_traces_main] using
          success_filter_pos (runGenerations agent (select_demo_queries records))
  refine ⟨hfst, ?_⟩
  rw [hexit]
  rw [← Bool.not_eq_true, hfst]
  simp [Bool.not_eq_true, not_exists]

/-- Claim C2 (amended): if the agent collaborator raises, `generate_trace`
catches the exception and returns a record — never propagating — with
`success=false`, `response=""`, and the exception text as the error string
(non-empty exactly when the exception text is non-empty). -/
theorem generate_trace_agent_error (agent : Agent) (qd : QueryData) (e : String)
    (h : agent (mkMessages qd.query) (mkMetadata qd) = .error e) :
    generate_trace agent qd =
      { query_id := qd.id, query := qd.query,
        dietary_restriction := qd.dietary_restriction,
        response := vStr "", success := false, error := some e } := by
  simp [generate_trace, h, Bind.bind, Except.bind]

/-- Claim C2 counterexample: an exception whose text is empty (Python
`raise Exception()`) is caught and recorded, but the resulting error string
is `""`, not a non-empty string as the claim states. -/
theorem generate_trace_agent_error_empty_text :
    (generate_trace agentEmptyError qd0).success = false ∧
    (generate_trace agentEmptyError qd0).response = vStr "" ∧
    (generate_trace agentEmptyError qd0).error = some "" := by
  refine ⟨rfl, rfl, rfl⟩

/-- Claim C2 witness: a concrete agent raising with text `"boom"`. -/
theorem generate_trace_agent_error_witness :
    generate_trace (fun _ _ => .error "boom") qd0 =
      { query_id := qd0.id, query := qd0.query,
        dietary_restriction := qd0.dietary_restriction,
        response := vStr "", success := false, error := some "boom" } :=
  generate_trace_agent_error (fun _ _ => .error "boom") qd0 "boom" rfl

theorem findAssistant_append_skip (pre : List PyMsg)
    (hpre : ∀ m' ∈ pre, ∃ r, dictGet m' "role" = some r ∧ pyEqStr r "assistant" = false) :
    ∀ rest, findAssistant (pre ++ rest) = findAssistant rest := by
  induction pre with
  | nil => intro rest; rfl
  | cons m pre ih =>
      intro rest
      obtain ⟨r, hr, hne⟩ := hpre m (by simp)
      have hpre' : ∀ m' ∈ pre, ∃ r, dictGet m' "role" = some r ∧
          pyEqStr r "assistant" = false := fun m' hm' => hpre m' (by simp [hm'])
      simp only [List.cons_append, findAssistant, hr, hne, Bool.false_eq_true,
        if_false]
      exact ih hpre' rest

/-- Claim C10: if the agent returns a list containing, before any
assistant-role message, a message dict lacking the `"role"` key, the role
lookup raises `KeyError`, which the catch-all handler converts into a
returned record with `success=false` and `response=""`. -/
theorem generate_trace_missing_role_key (agent : Agent) (qd : QueryData)
    (pre post : List PyMsg) (m : PyMsg)
    (hagent : agent (mkMessages qd.query) (mkMetadata qd) = .ok (pre ++ m :: post))
    (hpre : ∀ m' ∈ pre, ∃ r, dictGet m' "role" = some r ∧ pyEqStr r "assistant" = false)
    (hm : dictGet m "role" = none) :
    generate_trace agent qd =
      { query_id := qd.id, query := qd.query,
        dietary_restriction := qd.dietary_restriction,
        response := vStr "", success := false,
        error := some (keyErrorText "role") } := by
  have hscan : findAssistant (pre ++ m :: post) = .error (keyErrorText "role") := by
    rw [findAssistant_append_skip pre hpre]
    simp [findAssistant, hm]
  simp [generate_trace, hagent, Bind.bind, Except.bind, hscan]

/-- Claim C10 witness: a concrete agent returning a user message followed by
an empty dict. -/
theorem generate_trace_missing_role_key_witness :
    generate_trace agentNoRoleKey qd0 =
      { query_id := qd0.id, query := qd0.query,
        dietary_restriction := qd0.dietary_restriction,
        response := vStr "", success := false,
        error := some (keyErrorText "role") } :=
  generate_trace_missing_role_key agentNoRoleKey qd0
    [[("role", vStr "user")]] [] [] rfl
    (by
      intro m' hm'
      simp only [List.mem_singleton] at hm'
      subst hm'
      exact ⟨vStr "user", rfl, by decide⟩)
    rfl

/-- Claim C6 (amended): when the agent returns normally and every returned
message carries a `"role"` key, then: if no message has role `"assistant"`,
the response is `""` and success stays true; and if an assistant message is
present whose dict carries a `"content"` key, the response is the content of
the first assistant-authored message in list order, with success true. -/
theorem generate_trace_assistant_scan (agent : Agent) (qd : QueryData)
    (ms : List PyMsg)
    (hagent : agent (mkMessages qd.query) (mkMetadata qd) = .ok ms)
    (hkeys : ∀ m ∈ ms, (dictGet m "role").isSome = true) :
    ((∀ m ∈ ms, pyEqStr ((dictGet m "role").getD vNone) "assistant" = false) →
      (generate_trace agent qd).response = vStr "" ∧
      (generate_trace agent qd).success = true) ∧
    (∀ pre post m r c, ms = pre ++ m :: post →
      (∀ m' ∈ pre, pyEqStr ((dictGet m' "role").getD vNone) "assistant" = false) →
      dictGet m "role" = some r → pyEqStr r "assistant" = true →
      dictGet m "content" = some c →
      (generate_trace agent qd).response = c ∧
      (generate_trace agent qd).success = true) := by
  constructor
  · intro hnone
    have hpre : ∀ m' ∈ ms, ∃ r, dictGet m' "role" = some r ∧
        pyEqStr r "assistant" = false := by
      intro m' hm'
      cases hr : dictGet m' "role" with
      | none => exact absurd (hkeys m' hm') (by simp [hr])
      | some r =>
          refine ⟨r, rfl, ?_⟩
          have := hnone m' hm'
          rwa [hr, Option.getD_some] at this
    have hscan : findAssistant ms = .ok (vStr "") := by
      have := findAssistant_append_skip ms hpre []
      rwa [List.append_nil] at this
    simp [generate_trace, hagent, Bind.bind, Except.bind, hscan]
  · intro pre post m r c hms hpre hrole htrue hc
    have hpre' : ∀ m' ∈ pre, ∃ r, dictGet m' "role" = some r ∧
        pyEqStr r "assistant" = false := by
      intro m' hm'
      have hmem : m' ∈ ms := by rw [hms]; exact List.mem_append_left _ hm'
      cases hr : dictGet m' "role" with
      | none => exact absurd (hkeys m' hmem) (by simp [hr])
      | some r' =>
          refine ⟨r', rfl, ?_⟩
          have := hpre m' hm'
          rwa [hr, Option.getD_some] at this
    have hscan : findAssistant ms = .ok c := by
      rw [hms, findAssistant_append_skip pre hpre']
      simp [findAssistant, hrole, htrue, hc]
    simp [generate_trace, hagent, Bind.bind, Except.bind, hscan]

/-- Claim C6 counterexample: the agent returns `[{}]` — a message list with
no assistant-role message — yet `generate_trace` reports `success=false`
(the role lookup raised), contradicting the claimed `success=true`. -/
theorem generate_trace_no_assistant_not_success :
    (generate_trace agentEmptyMsg qd0).success = false ∧
    (generate_trace agentEmptyMsg qd0).response = vStr "" ∧
    (generate_trace agentEmptyMsg qd0).error = some (keyErrorText "role") :=
  ⟨rfl, rfl, rfl⟩

/-- Claim C6 witness: a well-formed message list with no assistant message
yields `response=""` and `success=true`. -/
theorem generate_trace_assistant_scan_witness :
    (generate_trace agentUserOnly qd0).response = vStr "" ∧
    (generate_trace agentUserOnly qd0).success = true :=
  (generate_trace_assistant_scan agentUserOnly qd0
      [[("role", vStr "user"), ("content", vStr "hi")]] rfl
      (by decide)).1 (by decide)

theorem select_aux_length (df : List QueryData) (ids : List Int) :
    (ids.filterMap (fun qid =>
      (df.find? (fun r => r.id == qid)).map (fun r =>
        ({ id := r.id, query := r.query,
           dietary_restriction := r.dietary_restriction,
           response_number := none } : QueryData)))).length =
    (ids.filter (fun i => df.any (fun r => r.id == i))).length := by
  induction ids with
  | nil => rfl
  | cons i ids ih =>
      cases hf : df.find? (fun r => r.id == i) with
      | none =>
          have hany : df.any (fun r => r.id == i) = false := by
            rw [← Bool.not_eq_true, List.any_eq_true]
            rw [List.find?_eq_none] at hf
            push_neg
            intro r hr
            simpa using hf r hr
          simp [List.filterMap_cons, hf, List.filter_cons, hany, ih]
      | some r =>
          have hany : df.any (fun r => r.id == i) = true := by
            rw [List.any_eq_true]
            refine ⟨r, List.mem_of_find?_eq_some hf, ?_⟩
            simpa using List.find?_some hf
          simp [List.filterMap_cons, hf, List.filter_cons, hany, ih]

/-- Claim C5: `select_demo_queries` returns one record per identifier of the
hardcoded set that is present in the catalog and never raises (it is total);
catalogs missing some of those identifiers yield strictly fewer than 4
records, catalogs containing all four yield exactly 4. -/
theorem select_demo_queries_spec (df : List QueryData) :
    ((select_demo_queries df).length =
      (selected_ids.filter (fun i => df.any (fun r => r.id == i))).length) ∧
    ((∀ i ∈ selected_ids, df.any (fun r => r.id == i) = true) →
      (select_demo_queries df).length = 4) ∧
    ((∃ i ∈ selected_ids, df.any (fun r => r.id == i) = false) →
      (select_demo_queries df).length < 4) ∧
    (∀ i ∈ selected_ids,
      (df.any (fun r => r.id == i) = true ↔
        ∃ q ∈ select_demo_queries df, q.id = i)) := by
  have hlen : (select_demo_queries df).length =
      (selected_ids.filter (fun i => df.any (fun r => r.id == i))).length :=
    select_aux_length df selected_ids
  refine ⟨hlen, ?_, ?_, ?_⟩
  · intro hall
    rw [hlen, List.filter_eq_self.mpr hall]
    rfl
  · rintro ⟨i, hi, hfalse⟩
    rw [hlen]
    have hle : (selected_ids.filter (fun i => df.any (fun r => r.id == i))).length ≤
        selected_ids.length := List.length_filter_le _ _
    have hne : (selected_ids.filter (fun i => df.any (fun r => r.id == i))).length ≠
        selected_ids.length := by
      intro heq
      have := (List.filter_length_eq_length).mp heq i hi
      rw [hfalse] at this
      exact absurd this (by simp)
    have h4 : selected_ids.length = 4 := rfl
    omega
  · intro i hi
    constructor
    · intro hany
      cases hf : df.find? (fun r => r.id == i) with
      | none =>
          rw [List.find?_eq_none] at hf
          rw [List.any_eq_true] at hany
          obtain ⟨r, hr, hp⟩ := hany
          exact absurd hp (hf r hr)
      | some r =>
          have hr : r.id = i := by simpa using List.find?_some hf
          refine ⟨{ id := r.id, query := r.query,
                    dietary_restriction := r.dietary_restriction,
                    response_number := none }, ?_, hr⟩
          show _ ∈ select_demo_queries df
          rw [select_demo_queries]
          refine List.mem_filterMap.mpr ⟨i, hi, ?_⟩
          rw [hf]
          rfl
    · rintro ⟨q, hq, hqid⟩
      rw [select_demo_queries] at hq
      obtain ⟨qid, hqidmem, hfq⟩ := List.mem_filterMap.mp hq
      cases hf : df.find? (fun r => r.id == qid) with
      | none => rw [hf] at hfq; simp at hfq
      | some r =>
          rw [hf] at hfq
          simp only [Option.map_some', Option.some.injEq] at hfq
          have hr : r.id = qid := by simpa using List.find?_some hf
          have hqq : q.id = qid := by rw [← hfq]; exact hr
          rw [List.any_eq_true]
          refine ⟨r, List.mem_of_find?_eq_some hf, ?_⟩
          simp only [beq_iff_eq]
          rw [hr, ← hqq, hqid]

/-- Claim C5 witness: a catalog with all four ids yields 4 records, one
missing id 48 yields strictly fewer. -/
theorem select_demo_queries_spec_witness :
    (select_demo_queries dfFull).length = 4 ∧
    (select_demo_queries dfMissing).length < 4 :=
  ⟨(select_demo_queries_spec dfFull).2.1 (by decide),
   (select_demo_queries_spec dfMissing).2.2.1 ⟨48, by decide, by decide⟩⟩

theorem buildGenerations_cons (q : QueryData) (qs : List QueryData) :
    buildGenerations (q :: qs) =
      { q with response_number := some 1 } ::
      { q with response_number := some 2 } ::
      { q with response_number := some 3 } :: buildGenerations qs := rfl

theorem generate_trace_stub (qd : QueryData) :
    generate_trace stubAgent qd =
      { query_id := qd.id, query := qd.query,
        dietary_restriction := qd.dietary_restriction,
        response := vStr "Heres a recipe", success := true, error := none } := rfl

theorem runGenerations_stub_cons (q : QueryData) (qs : List QueryData) :
    runGenerations stubAgent (q :: qs) =
      ({ query_id := q.id, query := q.query,
         dietary_restriction := q.dietary_restriction,
         response := vStr "Heres a recipe", success := true,
         error := none } : TraceResult) ::
      { query_id := q.id, query := q.query,
        dietary_restriction := q.dietary_restriction,
        response := vStr "Heres a recipe", success := true, error := none } ::
      { query_id := q.id, query := q.query,
        dietary_restriction := q.dietary_restriction,
        response := vStr "Heres a recipe", success := true, error := none } ::
      runGenerations stubAgent qs := rfl

theorem stub_covered_iff (qs : List QueryData) (r : String) :
    (∃ t ∈ runGenerations stubAgent qs, t.success = true ∧
      t.dietary_restriction = r) ↔ ∃ q ∈ qs, q.dietary_restriction = r := by
  induction qs with
  | nil => simp [runGenerations, buildGenerations]
  | cons q qs ih =>
      rw [runGenerations_stub_cons]
      simp only [List.mem_cons]
      constructor
      · rintro ⟨t, (rfl | rfl | rfl | ht), hsucc, hdiet⟩
        · exact ⟨q, Or.inl rfl, hdiet⟩
        · exact ⟨q, Or.inl rfl, hdiet⟩
        · exact ⟨q, Or.inl rfl, hdiet⟩
        · obtain ⟨q', hq', hd⟩ := ih.mp ⟨t, ht, hsucc, hdiet⟩
          exact ⟨q', Or.inr hq', hd⟩
      · rintro ⟨q', (rfl | hq'), hdiet⟩
        · exact ⟨_, Or.inl rfl, rfl, hdiet⟩
        · obtain ⟨t, ht, hs, hd⟩ := ih.mpr ⟨q', hq', hdiet⟩
          exact ⟨t, Or.inr (Or.inr (Or.inr ht)), hs, hd⟩

theorem runGenerations_stub_counts (qs : List QueryData) :
    ((runGenerations stubAgent qs).filter (fun t => t.success)).length =
      3 * qs.length ∧
    ((runGenerations stubAgent qs).filter (fun t => !t.success)).length = 0 := by
  induction qs with
  | nil => exact ⟨rfl, rfl⟩
  | cons q qs ih =>
      rw [runGenerations_stub_cons]
      refine ⟨?_, ?_⟩
      · simp only [List.filter_cons]
        simp [ih.1]
        omega
      · simp only [List.filter_cons]
        simp [ih.2]

/-- Claim C7: given exactly 4 selected demo queries, the orchestration
builds exactly 12 generation requests — three per query, carrying response
numbers 1, 2, 3 — processed in order; with a stub agent that always returns
one assistant message the run yields 12 successes, 0 failures, and the set
of dietary restrictions covered among successes equals the set of the 4
input restrictions. -/
theorem generate_traces_orchestration (qs : List QueryData)
    (h4 : qs.length = 4) :
    (buildGenerations qs).length = 12 ∧
    buildGenerations qs = qs.flatMap (fun q =>
      [{ q with response_number := some 1 },
       { q with response_number := some 2 },
       { q with response_number := some 3 }]) ∧
    ((runGenerations stubAgent qs).filter (fun t => t.success)).length = 12 ∧
    ((runGenerations stubAgent qs).filter (fun t => !t.success)).length = 0 ∧
    (∀ r, (∃ t ∈ runGenerations stubAgent qs, t.success = true ∧
            t.dietary_restriction = r) ↔ ∃ q ∈ qs, q.dietary_restriction = r) := by
  have hflat : ∀ l : List QueryData, buildGenerations l = l.flatMap (fun q =>
      [{ q with response_number := some 1 },
       { q with response_number := some 2 },
       { q with response_number := some 3 }]) := by
    intro l
    induction l with
    | nil => rfl
    | cons q l ihl => rw [buildGenerations_cons, List.flatMap_cons, ihl]; rfl
  have hblen : ∀ l : List QueryData, (buildGenerations l).length = 3 * l.length := by
    intro l
    induction l with
    | nil => rfl
    | cons q l ihl => rw [buildGenerations_cons]; simp only [List.length_cons, ihl]; omega
  refine ⟨?_, hflat qs, ?_, (runGenerations_stub_counts qs).2,
    fun r => stub_covered_iff qs r⟩
  · rw [hblen qs, h4]
  · rw [(runGenerations_stub_counts qs).1, h4]

/-- Claim C7 witness: the orchestration run on the concrete 4-query catalog
selection. -/
theorem generate_traces_orchestration_witness :
    (buildGenerations (select_demo_queries dfFull)).length = 12 ∧
    ((runGenerations stubAgent (select_demo_queries dfFull)).filter
      (fun t => t.success)).length = 12 :=
  ⟨(generate_traces_orchestration (select_demo_queries dfFull) (by decide)).1,
   (generate_traces_orchestration (select_demo_queries dfFull) (by decide)).2.2.1⟩

/-- Claim C4: for every trace with no usable observation metadata (the
restriction is still the unset `""` after the observation stage) and a
non-empty extracted query string, `extract_trace_data` sets
`dietary_restriction` by substring match on the lowercased query against the
ordered keyword chain gluten → "gluten-free", "sugar-free", "vegetarian",
"paleo", first match winning; no match leaves it the empty string. -/
theorem extract_trace_data_heuristic (fetch : PyVal → Except String (Option PyVal))
    (trace : Trace) (s : String)
    (hq : extractQuery trace.input = .ok (vStr s))
    (hs : s ≠ "")
    (hobs : obsRestriction trace.observations fetch = .ok (vStr "")) :
    extract_trace_data fetch trace = some
      { query := vStr s,
        dietary_restriction :=
          if strContains (pyLower s) "gluten" then vStr "gluten-free"
          else if strContains (pyLower s) "sugar-free" then vStr "sugar-free"
          else if strContains (pyLower s) "vegetarian" then vStr "vegetarian"
          else if strContains (pyLower s) "paleo" then vStr "paleo"
          else vStr "",
        response := extractResponse trace.output,
        trace_id := trace.id } := by
  have hbeq : (s == "") = false := beq_eq_false_iff_ne.mpr hs
  have hcond : (!pyTruthy (vStr "") && pyTruthy (vStr s)) = true := by
    simp [pyTruthy, bne, hbeq]
  have hheu : restrictionHeuristic (vStr "") (vStr s) = .ok
      (if strContains (pyLower s) "gluten" then vStr "gluten-free"
       else if strContains (pyLower s) "sugar-free" then vStr "sugar-free"
       else if strContains (pyLower s) "vegetarian" then vStr "vegetarian"
       else if strContains (pyLower s) "paleo" then vStr "paleo"
       else vStr "") := by
    rw [restrictionHeuristic]
    simp only [hcond, if_true]
    split_ifs <;> rfl
  rw [extract_trace_data]
  simp only [hq, hobs, hheu, Bind.bind, Except.bind, pure, Except.pure]

/-- Claim C4 witness: the query "I need a gluten-free dinner" with no
metadata source yields `dietary_restriction = "gluten-free"`. -/
theorem extract_trace_data_heuristic_witness :
    extract_trace_data fetchE trace4 = some item4 :=
  extract_trace_data_heuristic fetchE trace4 "I need a gluten-free dinner"
    rfl (by decide) rfl

/-- Claim C8 (amended): for every trace whose `output` field is not a dict
(including absent or `None` output), `extract_trace_data` never raises (the
embedding is total: it returns `None` when extraction of another field
fails internally), and every record it does return has `response = ""`. -/
theorem extract_trace_data_nondict_output
    (fetch : PyVal → Except String (Option PyVal)) (trace : Trace)
    (hout : ∀ es, trace.output ≠ some (vDict es)) :
    ∀ item, extract_trace_data fetch trace = some item →
      item.response = vStr "" := by
  have hresp : extractResponse trace.output = vStr "" := by
    cases ho : trace.output with
    | none => rfl
    | some v =>
        cases v with
        | vDict es => exact absurd ho (hout es)
        | vNone => rfl
        | vStr s => simp [extractResponse]
        | vInt n => simp [extractResponse]
        | vList xs => simp [extractResponse]
  intro item hitem
  rw [extract_trace_data] at hitem
  cases h1 : extractQuery trace.input with
  | error e => rw [h1] at hitem; simp [Bind.bind, Except.bind] at hitem
  | ok q =>
      rw [h1] at hitem
      simp only [Bind.bind, Except.bind] at hitem
      cases h2 : obsRestriction trace.observations fetch with
      | error e =>
          rw [h2] at hitem
          simp [Except.bind] at hitem
      | ok dr0 =>
          rw [h2] at hitem
          simp only [Except.bind] at hitem
          cases h3 : restrictionHeuristic dr0 q with
          | error e =>
              rw [h3] at hitem
              simp [Except.bind] at hitem
          | ok dr =>
              rw [h3] at hitem
              simp only [Except.bind, pure, Except.pure,
                Option.some.injEq] at hitem
              rw [← hitem]
              exact hresp

/-- Claim C8 counterexample: a trace with absent (non-dict) `output` but a
malformed `input` — its `"messages"` value is the integer 1, so iterating it
raises `TypeError` — makes `extract_trace_data` return `None`: no record
with `response=""` is yielded, contrary to the wording of the claim. -/
theorem extract_trace_data_nondict_output_counterexample :
    trace8.output = none ∧ extract_trace_data fetchE trace8 = none :=
  ⟨rfl, rfl⟩

/-- Claim C8 witness: a trace with absent output and well-formed input
yields a record whose response is `""`. -/
theorem extract_trace_data_nondict_output_witness :
    extract_trace_data fetchE trace4 = some item4 ∧
    item4.response = vStr "" :=
  ⟨rfl, extract_trace_data_nondict_output fetchE trace4
    (fun es h => by simp [trace4] at h) item4 rfl⟩

theorem uploadLoop_eq (items : List (Option ExtractedItem)) :
    uploadLoop items =
      (items.filterMap id).filter (fun it => pyTruthy it.response) := by
  induction items with
  | nil => rfl
  | cons o rest ih =>
      cases o with
      | none => simpa [uploadLoop, List.filterMap_cons] using ih
      | some it =>
          simp only [uploadLoop, List.filterMap_cons, id, List.filter_cons]
          cases h : pyTruthy it.response <;> simp [h, ih]

theorem reportedCount_eq (items : List (Option ExtractedItem)) :
    reportedCount items =
      ((items.filterMap id).filter (fun it => pyTruthy it.response)).length := by
  induction items with
  | nil => rfl
  | cons o rest ih =>
      cases o with
      | none => simpa [reportedCount, List.filter_cons, List.filterMap_cons] using ih
      | some it =>
          simp only [reportedCount, List.filter_cons, List.filterMap_cons, id] at *
          by_cases hp : pyTruthy it.response = true <;> simp [hp, ih]

/-- Claim C1 (amended): for every list of extracted items passed to
`create_langfuse_dataset`, a dataset item is uploaded for an item if and
only if the item is non-`None` and its `response` field is truthy in the
Python sense — for a string response, exactly when it is non-empty, so
items with empty string responses are skipped without error — and the
reported count equals the number of uploaded items; 12 items of which 2
have empty responses yield exactly 10 uploads. -/
theorem create_langfuse_dataset_spec :
    (∀ items : List (Option ExtractedItem),
      (create_langfuse_dataset items).uploaded =
        (items.filterMap id).filter (fun it => pyTruthy it.response) ∧
      (create_langfuse_dataset items).reported =
        ((create_langfuse_dataset items).uploaded).length ∧
      (∀ it : ExtractedItem,
        it ∈ (create_langfuse_dataset items).uploaded ↔
          some it ∈ items ∧ pyTruthy it.response = true)) ∧
    (create_langfuse_dataset items12).reported = 10 ∧
    ((create_langfuse_dataset items12).uploaded).length = 10 := by
  refine ⟨?_, rfl, rfl⟩
  intro items
  refine ⟨uploadLoop_eq items, ?_, ?_⟩
  · show reportedCount items = (uploadLoop items).length
    rw [reportedCount_eq, uploadLoop_eq]
  · intro it
    show it ∈ uploadLoop items ↔ _
    rw [uploadLoop_eq]
    simp [List.mem_filter, List.mem_filterMap]

/-- Claim C1 counterexample: an extracted item whose response is the
integer 1 (a value the platform can store in the output `content` field) is
non-`None` and gets uploaded, but its response is not a non-empty string,
so "uploaded iff response is a non-empty string" fails as stated. -/
theorem create_langfuse_dataset_counterexample :
    extract_trace_data fetchE traceI = some itemI ∧
    (create_langfuse_dataset [some itemI]).uploaded = [itemI] ∧
    itemI.response = vInt 1 ∧
    isStr itemI.response = false :=
  ⟨rfl, rfl, rfl, rfl⟩
